import Mathlib

/-!
Verification development for the AirCheck repository (air-quality expert
system: Indonesian text normalization + TF-IDF / multinomial naive Bayes
classification + Flask serving layer).

Python strings are modelled as lists of characters (`Str`), real-valued
model parameters as rationals, and the two external linguistic resources
(the Sastrawi stemmer and stopword dictionary) as an explicit record of
black-box capabilities, following the repository spec's treatment of them
as `stem(token) -> token` / `isStopword(token) -> bool` oracles.
-/

namespace AirCheck

/-- Python strings modelled as lists of characters. -/
abbrev Str := List Char

/-- The characters of Python `string.punctuation`: the ASCII ranges
33–47, 58–64, 91–96 and 123–126. -/
def isPunctChar (c : Char) : Bool :=
  (33 ≤ c.toNat && c.toNat ≤ 47) || (58 ≤ c.toNat && c.toNat ≤ 64) ||
  (91 ≤ c.toNat && c.toNat ≤ 96) || (123 ≤ c.toNat && c.toNat ≤ 126)

/-- Digit characters, as matched by the regex \d in `remove_punctuation`. -/
def isDigitChar (c : Char) : Bool := c.isDigit

/-- Whitespace characters as matched by the regex \s and by Python
`str.split()` (space, tab, newline, carriage return, vertical tab, form feed). -/
def isSpaceChar (c : Char) : Bool :=
  c = ' ' || c = '\t' || c = '\n' || c = '\r' || c = '\x0b' || c = '\x0c'

/-- Python `' '.join(chunks)`: join with single spaces. -/
def joinSp (ts : List Str) : Str := List.intercalate [' '] ts

/-- Python `s.split()` (no separator): split on runs of whitespace,
discarding empty chunks. -/
def splitWS (s : Str) : List Str := (s.splitOnP isSpaceChar).filter (fun t => t ≠ [])

/-- Python `s.split(' ')`: split on every single space, keeping empty chunks
(this is what the Sastrawi stopword remover uses internally). -/
def splitSp (s : Str) : List Str := s.splitOn ' '

/-- Python `str.lower()`. -/
def pyLower (s : Str) : Str := s.map Char.toLower

/-- Python `str.strip()`: drop leading and trailing whitespace. -/
def pyStrip (s : Str) : Str :=
  ((s.dropWhile isSpaceChar).reverse.dropWhile isSpaceChar).reverse

/-! ## src/nlp_processor.py -/

/-- Function `case_folding` of src/nlp_processor.py: lowercase the text.  The
source returns "" for non-string input; in this embedding the input is
always a string, so only the `text.lower()` branch is reachable. -/
def case_folding (text : Str) : Str := pyLower text

/-- Function `remove_punctuation` of src/nlp_processor.py: delete every character of
`string.punctuation` (str.translate), delete digits (re.sub of \d+ by ""),
then collapse whitespace runs to single spaces and strip the ends
(re.sub of \s+ by " ", then strip). -/
def remove_punctuation (text : Str) : Str :=
  let t1 := text.filter (fun c => !isPunctChar c)
  let t2 := t1.filter (fun c => !isDigitChar c)
  joinSp (splitWS t2)

/-- Function `tokenize` of src/nlp_processor.py: Python `text.split()`. -/
def tokenize (text : Str) : List Str := splitWS text

/-- The set `CUSTOM_STOPWORDS` of src/nlp_processor.py. -/
def CUSTOM_STOPWORDS : List Str :=
  (["dan", "atau", "yang", "di", "ke", "dari", "ini", "itu",
    "dengan", "untuk", "pada", "adalah", "juga", "sudah",
    "akan", "bisa", "ada", "tidak", "saya", "kami", "kita",
    "mereka", "dia", "ia", "sangat", "sekali", "terasa", "seperti"]).map
    String.toList

/-- The two external Sastrawi linguistic resources, as the black-box
capabilities the spec describes: a stemmer `stem(token) -> token` and a
stopword dictionary membership test `isStopword(token) -> bool`. -/
structure Sastrawi where
  stem : Str → Str
  isStop : Str → Bool

/-- The external Sastrawi `StopWordRemover.remove(text)`: split the text on
single spaces, drop the words in the stopword dictionary, rejoin with
spaces. -/
def sastrawiRemove (R : Sastrawi) (text : Str) : Str :=
  joinSp ((splitSp text).filter (fun w => !R.isStop w))

/-- Function `remove_stopwords` of src/nlp_processor.py: join the tokens, apply the
Sastrawi stopword remover to the joined string, re-split with `str.split()`,
then drop members of `CUSTOM_STOPWORDS` token by token. -/
def remove_stopwords (R : Sastrawi) (tokens : List Str) : List Str :=
  let text := joinSp tokens
  let text2 := sastrawiRemove R text
  (splitWS text2).filter (fun w => decide (w ∉ CUSTOM_STOPWORDS))

/-- Function `stem` of src/nlp_processor.py: map each token through the Sastrawi
stemmer. -/
def stemTokens (R : Sastrawi) (tokens : List Str) : List Str :=
  tokens.map R.stem

/-- The token list produced by `preprocess` just before the final join. -/
def preprocessTokens (R : Sastrawi) (text : Str) : List Str :=
  stemTokens R (remove_stopwords R (tokenize (remove_punctuation (case_folding text))))

/-- Function `preprocess` of src/nlp_processor.py: case folding, punctuation/digit
removal, tokenizing, two-stage stopword removal, stemming, and a final
single-space join. -/
def preprocess (R : Sastrawi) (text : Str) : Str :=
  joinSp (preprocessTokens R text)

/-- Function `preprocess_batch` of src/nlp_processor.py. -/
def preprocess_batch (R : Sastrawi) (texts : List Str) : List Str :=
  texts.map (preprocess R)

/-- Model of the external Sastrawi Indonesian stopword dictionary (the
default word list of `StopWordRemoverFactory`).  This is third-party data,
not repository code; it is reproduced here so that concrete runs of the
pipeline can be evaluated. -/
def sastrawiStopWords : List Str :=
  (["yang", "untuk", "pada", "ke", "para", "namun", "menurut", "antara",
    "dia", "dua", "ia", "seperti", "jika", "sehingga", "kembali", "dan",
    "tidak", "ini", "karena", "kepada", "oleh", "saat", "harus",
    "sementara", "setelah", "belum", "kami", "sekitar", "bagi", "serta",
    "di", "dari", "telah", "sebagai", "masih", "hal", "ketika", "adalah",
    "itu", "dalam", "bisa", "bahwa", "atau", "hanya", "kita", "dengan",
    "akan", "juga", "ada", "mereka", "sudah", "saya", "terhadap", "secara",
    "agar", "lain", "anda", "begitu", "mengapa", "kenapa", "yaitu", "yakni",
    "daripada", "itulah", "lagi", "maka", "tentang", "demi", "dimana",
    "kemana", "pula", "sambil", "sebelum", "sesudah", "supaya", "guna",
    "kah", "pun", "sampai", "sedangkan", "selagi", "tetapi", "apakah",
    "kecuali", "sebab", "selain", "seolah", "seraya", "seterusnya", "tanpa",
    "agak", "boleh", "dapat", "dsb", "dst", "dll", "dahulu", "dulunya",
    "anu", "demikian", "tapi", "ingin", "nggak", "mari", "nanti",
    "melainkan", "oh", "ok", "seharusnya", "sebetulnya", "setiap",
    "setidaknya", "sesuatu", "pasti", "saja", "toh", "ya", "walau",
    "tolong", "tentu", "amat", "apalagi", "bagaimanapun"]).map String.toList

/-- Model of a fragment of the external Sastrawi (Nazief–Adriani) stemmer:
a finite table of affixed words mapped to their morphological roots
(e.g. the inflectional particle "-lah" is stripped, nasalized prefixes are
undone), and the identity on every word outside the table — in particular
on dictionary root words such as "udara" and "bersih". -/
def sastrawiStemTable : List (Str × Str) :=
  ([("sangatlah", "sangat"), ("menyengat", "sengat"), ("berdebu", "debu"),
    ("perasaan", "rasa"), ("terasa", "rasa")]).map
    (fun p => (p.1.toList, p.2.toList))

/-- A concrete instance of the Sastrawi resources built from the two models
above, used to evaluate the pipeline on concrete inputs. -/
def sastrawiModel : Sastrawi where
  stem := fun w =>
    match sastrawiStemTable.lookup w with
    | some r => r
    | none => w
  isStop := fun w => decide (w ∈ sastrawiStopWords)

/-! ## Classifier pipeline

The classifier objects live in the external scikit-learn library; the
repository code only configures and calls them.  They are modelled here at
the level the spec describes: a fitted `MultinomialNB` is its class list
(the fixed internal label ordering `classes_`), its class log priors and
its per-class feature log likelihoods; prediction is the argmax of the
joint log likelihood, and `predict_proba` normalizes the exponentiated
joint log likelihoods.  Real-valued parameters are modelled as rationals,
and the (transcendental) exponential is an explicit strictly monotone,
strictly positive function bundled with the facts the code relies on. -/

/-- A fitted `MultinomialNB`: `classes_`, `class_log_prior_` and
`feature_log_prob_`. -/
structure NBModel where
  classes : List Str
  classLogPrior : List ℚ
  featureLogProb : List (List ℚ)

/-- Wellformedness of a fitted classifier as scikit-learn produces it:
at least one class, no duplicate class labels, and one prior and one
feature-likelihood row per class. -/
def Trained (m : NBModel) : Prop :=
  m.classes ≠ [] ∧ m.classes.Nodup ∧
  m.classLogPrior.length = m.classes.length ∧
  m.featureLogProb.length = m.classes.length

/-- Dot product of a feature vector with a parameter row. -/
def dotQ (x w : List ℚ) : ℚ := (List.zipWith (fun a b => a * b) x w).sum

/-- The per-class joint log likelihood of `MultinomialNB`:
`class_log_prior_ + x · feature_log_prob_` for each class. -/
def jll (m : NBModel) (x : List ℚ) : List ℚ :=
  List.zipWith (fun p row => p + dotQ x row) m.classLogPrior m.featureLogProb

/-- Accumulator of `argmaxIdx`: current best index, current best value,
index of the next element.  A later element replaces the best only when
strictly greater, so the FIRST occurrence of the maximum wins — the
tie-breaking rule of `numpy.argmax`. -/
def argmaxAux : ℕ → ℚ → ℕ → List ℚ → ℕ
  | bi, _, _, [] => bi
  | bi, bv, i, v :: vs =>
    if bv < v then argmaxAux i v (i + 1) vs else argmaxAux bi bv (i + 1) vs

/-- Model of `numpy.argmax`: index of the first occurrence of the maximum
(0 on the empty list, which numpy instead rejects). -/
def argmaxIdx : List ℚ → ℕ
  | [] => 0
  | v :: vs => argmaxAux 0 v 1 vs

/-- Model of `model.predict([x])[0]`: the class at the argmax of the joint log
likelihood. -/
def nbPredict (m : NBModel) (x : List ℚ) : Str :=
  m.classes.getD (argmaxIdx (jll m x)) []

/-- The exponential used by `predict_proba`, abstracted to the two facts
the code relies on: it is strictly positive and strictly monotone. -/
structure ExpFn where
  f : ℚ → ℚ
  pos : ∀ q, 0 < f q
  mono : StrictMono f

/-- Model of `model.predict_proba([x])[0]`: `exp(jll_k) / Σ_j exp(jll_j)`
(scikit-learn computes this as `exp(jll - logsumexp(jll))`). -/
def nbPredictProba (E : ExpFn) (m : NBModel) (x : List ℚ) : List ℚ :=
  let scores := (jll m x).map E.f
  scores.map (fun s => s / scores.sum)

/-- A concrete computable exponential-like function: strictly positive and
strictly monotone on ℚ, used to instantiate `ExpFn` in witnesses. -/
def expApprox (q : ℚ) : ℚ := if 0 ≤ q then 1 + q else 1 / (1 - q)

/-- A fitted `TfidfVectorizer`: the learned vocabulary (unigrams and
bigrams) and the per-term idf weights. -/
structure Vectorizer where
  vocab : List Str
  idf : List ℚ

/-- The bigrams of a token sequence, each joined with a single space, as
produced by the `TfidfVectorizer` analyzer for `ngram_range=(1, 2)`. -/
def bigrams : List Str → List Str
  | a :: b :: rest => (a ++ ' ' :: b) :: bigrams (b :: rest)
  | _ => []

/-- The scikit-learn analyzer terms of a document for
`ngram_range=(1, 2)`: word tokens (the default `token_pattern` keeps only
tokens of at least 2 word characters) plus their bigrams. -/
def ngrams (doc : Str) : List Str :=
  let toks := (splitWS doc).filter (fun t => 2 ≤ t.length)
  toks ++ bigrams toks

/-- Model of `vectorizer.transform([doc])`: per-vocabulary-term occurrence counts
weighted by idf.  scikit-learn additionally l2-normalizes each row; that
normalization is the identity on the zero vector and only rescales nonzero
vectors, and no verified claim depends on the scale, so the rational model
omits it. -/
def transform (V : Vectorizer) (doc : Str) : List ℚ :=
  List.zipWith (fun v i => ((ngrams doc).count v : ℚ) * i) V.vocab V.idf

/-! ## src/model_training.py -/

/-- The error conditions raised inside `train_model` by the external
scikit-learn calls (`train_test_split` with `test_size=0.2, stratify=y`):
an empty train or test partition, a stratification class with fewer than 2
members, or a partition smaller than the number of classes. -/
inductive TrainError
  | emptyPartition
  | classTooSmall
  | partitionBelowClassCount
deriving DecidableEq

/-- The value `ceil(0.2 * n)`: the test-partition size chosen by
`train_test_split(test_size=0.2)`. -/
def nTestOf (n : ℕ) : ℕ := (n + 4) / 5

/-- Column-wise sum of feature-vector rows of dimension `d`. -/
def sumRows (d : ℕ) (rows : List (List ℚ)) : List ℚ :=
  rows.foldl (fun acc r => List.zipWith (fun a b => a + b) acc r)
    (List.replicate d (0 : ℚ))

/-- Model of `MultinomialNB(alpha=1.0).fit`: classes are the distinct
labels (scikit-learn sorts them; this model keeps first-occurrence order,
which no verified claim depends on), priors are the per-class sample
fractions and the feature likelihoods are the Laplace-smoothed per-class
feature ratios.  scikit-learn stores the logarithms of these rationals;
the model stores the rationals themselves, since the logs are irrational
and no claim reads the numeric values. -/
def fitNB (d : ℕ) (xs : List (List ℚ)) (ys : List Str) : NBModel :=
  let classes := ys.dedup
  let n := ys.length
  let prior := classes.map (fun c => ((ys.count c : ℚ) / n))
  let featProb := classes.map (fun c =>
    let rows := (List.zip xs ys).filterMap
      (fun p => if p.2 = c then some p.1 else none)
    let colSums := sumRows d rows
    colSums.map (fun s => (s + 1) / (colSums.sum + d)))
  ⟨classes, prior, featProb⟩

/-- Function `train_model` of src/model_training.py.  The repository code performs
no validation of its own: every failure is an exception raised by the
external scikit-learn calls, modelled here after their documented
behavior, in their order of evaluation inside
`train_test_split(test_size=0.2, random_state=42, stratify=y)`.  The
seeded shuffle is modelled as the identity permutation (which rows land in
which partition affects no verified claim), `TfidfVectorizer.fit`
(`max_features=1000, ngram_range=(1,2), min_df=1`) collects the train-split
vocabulary capped at 1000 terms, and the idf weights store the rational
argument `(1+n)/(1+df)` of scikit-learn's `log((1+n)/(1+df)) + 1`.  The
returned triple mirrors `(model, vectorizer, accuracy)`. -/
def train_model (data : List (Str × Str)) :
    Except TrainError (NBModel × Vectorizer × ℚ) :=
  let n := data.length
  let nTe := nTestOf n
  let nTr := n - nTe
  if nTr = 0 ∨ nTe = 0 then .error .emptyPartition
  else
    let ys := data.map Prod.snd
    let classes := ys.dedup
    if classes.any (fun c => ys.count c < 2) then .error .classTooSmall
    else if nTr < classes.length ∨ nTe < classes.length then
      .error .partitionBelowClassCount
    else
      let train := data.take nTr
      let test := data.drop nTr
      let trainDocs := train.map Prod.fst
      let vocab := ((trainDocs.flatMap ngrams).dedup).take 1000
      let idf := vocab.map (fun v =>
        let df := (trainDocs.filter (fun doc => decide (v ∈ ngrams doc))).length
        ((1 + nTr : ℚ) / (1 + df)))
      let V : Vectorizer := ⟨vocab, idf⟩
      let m := fitNB vocab.length (trainDocs.map (transform V)) (train.map Prod.snd)
      let preds := test.map (fun p => nbPredict m (transform V p.1))
      let correct := (List.zip preds (test.map Prod.snd)).countP
        (fun p => decide (p.1 = p.2))
      .ok (m, V, (correct : ℚ) / nTe)

/-! ## src/app.py -/

/-- The on-disk pickle files `model_nb.pkl` and `vectorizer.pkl`: `none`
models a missing file, `some` a present file with its unpickled contents. -/
structure FileSystem where
  modelFile : Option NBModel
  vectorizerFile : Option Vectorizer

/-- The module-level globals `model` and `vectorizer` of src/app.py. -/
structure ServerState where
  model : Option NBModel
  vectorizer : Option Vectorizer

/-- The globals at import time: `model = None`, `vectorizer = None`. -/
def initState : ServerState := ⟨none, none⟩

/-- Function `load_model` of src/app.py: if both pickle files exist, load both and
return `True`; otherwise leave both globals untouched and return `False`.
Both files are loaded or neither is. -/
def load_model (fs : FileSystem) (st : ServerState) : ServerState × Bool :=
  match fs.modelFile, fs.vectorizerFile with
  | some m, some v => (⟨some m, some v⟩, true)
  | _, _ => (st, false)

/-- The server state after startup: `load_model` applied to the initial
`None`/`None` globals. -/
def startupState (fs : FileSystem) : ServerState :=
  (load_model fs initState).1

/-- One advisory pool of `get_saran`: color, icon, description and the
fixed advisory list. -/
structure SaranPool where
  warna : Str
  icon : Str
  deskripsi : Str
  saran_all : List Str

/-- The `"Baik"` pool of `get_saran` in src/app.py. -/
def poolBaik : SaranPool where
  warna := "#28a745".toList
  icon := "✅".toList
  deskripsi := "Kualitas udara sangat baik dan sehat untuk semua aktivitas.".toList
  saran_all :=
    (["Aman untuk beraktivitas di luar ruangan sepanjang hari",
      "Cocok untuk olahraga dan kegiatan outdoor",
      "Nikmati udara segar dengan membuka jendela rumah",
      "Tidak perlu menggunakan masker",
      "Waktu yang tepat untuk jogging atau lari pagi",
      "Ideal untuk bersepeda di taman atau jalanan",
      "Bagus untuk piknik bersama keluarga",
      "Aman untuk anak-anak bermain di luar",
      "Cocok untuk senam pagi di area terbuka",
      "Manfaatkan untuk menjemur pakaian",
      "Baik untuk berkebun atau aktivitas halaman",
      "Udara segar baik untuk kesehatan mental",
      "Sempurna untuk hiking atau mendaki",
      "Aman untuk lansia beraktivitas outdoor",
      "Waktu tepat untuk olahraga bersama komunitas"]).map String.toList

/-- The `"Sedang"` pool of `get_saran` in src/app.py. -/
def poolSedang : SaranPool where
  warna := "#ffc107".toList
  icon := "⚠️".toList
  deskripsi := "Kualitas udara cukup baik, namun perlu sedikit perhatian.".toList
  saran_all :=
    (["Kurangi aktivitas berat di luar ruangan",
      "Gunakan masker jika sensitif terhadap polusi",
      "Perhatikan gejala seperti batuk atau mata perih",
      "Tutup jendela jika polusi meningkat",
      "Batasi waktu olahraga outdoor maksimal 1 jam",
      "Hindari area dengan lalu lintas padat",
      "Minum air putih lebih banyak dari biasanya",
      "Pertimbangkan olahraga indoor hari ini",
      "Waspadai jika memiliki riwayat asma",
      "Kurangi aktivitas fisik saat siang hari",
      "Pantau kondisi udara secara berkala",
      "Siapkan masker untuk berjaga-jaga",
      "Hindari area konstruksi atau pembangunan",
      "Batasi aktivitas outdoor untuk anak kecil",
      "Pertimbangkan untuk bekerja dari rumah"]).map String.toList

/-- The `"Tidak Sehat"` pool of `get_saran` in src/app.py. -/
def poolTidakSehat : SaranPool where
  warna := "#dc3545".toList
  icon := "🚨".toList
  deskripsi := "Kualitas udara buruk dan berbahaya bagi kesehatan.".toList
  saran_all :=
    (["Hindari aktivitas di luar ruangan",
      "WAJIB gunakan masker N95 jika harus keluar",
      "Tutup semua jendela dan pintu rapat-rapat",
      "Gunakan air purifier jika tersedia",
      "Segera ke dokter jika mengalami sesak napas",
      "Jangan biarkan anak-anak bermain di luar",
      "Batasi aktivitas fisik seminimal mungkin",
      "Nyalakan AC dengan mode recirculate",
      "Siapkan obat-obatan pernapasan darurat",
      "Hindari memasak dengan pembakaran terbuka",
      "Basahi kain dan letakkan di ventilasi",
      "Minum air hangat untuk meredakan tenggorokan",
      "Tetap di dalam ruangan sebisa mungkin",
      "Hubungi layanan kesehatan jika gejala memburuk",
      "Evakuasi jika kondisi sangat parah",
      "Pantau informasi dari BMKG dan Dinkes",
      "Jangan membakar sampah atau apapun"]).map String.toList

/-- The `saran_pool` dictionary of `get_saran`, as an association list in
source order. -/
def saran_pool : List (Str × SaranPool) :=
  [("Baik".toList, poolBaik), ("Sedang".toList, poolSedang),
   ("Tidak Sehat".toList, poolTidakSehat)]

/-- Model of `random.sample(l, k)`: the first `k` elements of a rotation of
the pool, the rotation index standing for the process-wide randomness —
`k` elements drawn from the pool without replacement. -/
def pySample (r : ℕ) (l : List Str) (k : ℕ) : List Str := (l.rotate r).take k

/-- The return value of `get_saran`. -/
structure SaranInfo where
  warna : Str
  icon : Str
  deskripsi : Str
  saran : List Str

/-- Function `get_saran` of src/app.py: look the predicted label up in
`saran_pool`, falling back to the `"Sedang"` pool for unknown labels
(`saran_pool.get(kualitas, saran_pool["Sedang"])`), then sample
`random.randint(4, 5)` advisories (capped at the pool size) without
replacement.  The two naturals `r1`, `r2` model the two draws from
Python's process-wide randomness: `num_saran = 4 + r1 % 2` models
`random.randint(4, 5)`. -/
def get_saran (r1 r2 : ℕ) (kualitas : Str) : SaranInfo :=
  let pool := ((saran_pool.find? (fun p => decide (p.1 = kualitas))).map
    Prod.snd).getD poolSedang
  let num_saran := 4 + r1 % 2
  let selected := pySample r2 pool.saran_all (min num_saran pool.saran_all.length)
  ⟨pool.warna, pool.icon, pool.deskripsi, selected⟩

/-- The message returned by the `/predict` route when the artifact pair is
not loaded. -/
def errModelMsg : Str :=
  "Model belum dimuat. Jalankan training terlebih dahulu.".toList

/-- The message returned by the `/predict` route when the concatenated
form input is whitespace-only. -/
def errEmptyMsg : Str := "Silakan isi minimal satu pertanyaan.".toList

/-- The JSON response of the `/predict` route: either an error payload
(`error: True` with a message) or the success payload. -/
inductive Response
  | err (message : Str)
  | ok (kualitas : Str) (input_text : Str) (processed_text : Str)
      (probabilitas : List (Str × ℚ)) (saran : List Str) (deskripsi : Str)
deriving DecidableEq

/-- Python `round(x, 1)` on the percentage scale (Python rounds halves to
even on floats; the rational model rounds halves up, which agrees
everywhere else and no claim depends on exact halves). -/
def pyRound1 (q : ℚ) : ℚ := ((round (q * 10) : ℤ) : ℚ) / 10

/-- The `/predict` route of src/app.py: reject when a global is `None`;
concatenate the four form fields with single spaces; reject when the
concatenation strips to empty; otherwise preprocess, vectorize, predict,
build the percentage dictionary `dict(zip(model.classes_,
[round(p * 100, 1) ...]))`, and attach the sampled advisories. -/
def predictRoute (R : Sastrawi) (E : ExpFn) (st : ServerState)
    (kondisi_kabut kondisi_bau kondisi_pernapasan deskripsi_tambahan : Str)
    (r1 r2 : ℕ) : Response :=
  match st.model, st.vectorizer with
  | some m, some V =>
    let input_text :=
      kondisi_kabut ++ ' ' :: kondisi_bau ++ ' ' :: kondisi_pernapasan ++
        ' ' :: deskripsi_tambahan
    if pyStrip input_text = [] then .err errEmptyMsg
    else
      let processed_text := preprocess R input_text
      let text_tfidf := transform V processed_text
      let prediction := nbPredict m text_tfidf
      let probability := nbPredictProba E m text_tfidf
      let prob_dict := List.zip m.classes
        (probability.map (fun p => pyRound1 (p * 100)))
      let saran_info := get_saran r1 r2 prediction
      .ok prediction input_text processed_text prob_dict saran_info.saran
        saran_info.deskripsi
  | _, _ => .err errModelMsg

/-! ## Lemmas about the text pipeline -/

/-- Pointwise-identity maps fix a list (member-wise variant). -/
theorem map_eq_self_of_mem {α : Type} {f : α → α} :
    ∀ {l : List α}, (∀ a ∈ l, f a = a) → l.map f = l
  | [], _ => rfl
  | a :: l, h => by
    rw [List.map_cons, h a (by simp), map_eq_self_of_mem (fun b hb => h b (by simp [hb]))]

/-- Joining two or more chunks puts a single space after the first chunk. -/
theorem joinSp_cons_cons (t t' : Str) (ts : List Str) :
    joinSp (t :: t' :: ts) = t ++ ' ' :: joinSp (t' :: ts) := by
  simp [joinSp, List.intercalate]

/-- Python `str.split()` is a right inverse of `' '.join` up to dropping empty
chunks, whenever no chunk contains whitespace. -/
theorem splitWS_joinSp : ∀ (ts : List Str),
    (∀ t ∈ ts, ∀ c ∈ t, isSpaceChar c = false) →
    splitWS (joinSp ts) = ts.filter (fun t => t ≠ [])
  | [], _ => rfl
  | [t], h => by
    have ht : ∀ c ∈ t, ¬(isSpaceChar c = true) := by
      intro c hc
      simp [h t (by simp) c hc]
    show splitWS (joinSp [t]) = [t].filter (fun t => t ≠ [])
    have hj : joinSp [t] = t := by simp [joinSp, List.intercalate]
    rw [hj, splitWS, List.splitOnP_eq_single _ _ ht]
  | t :: t' :: ts, h => by
    have ht : ∀ c ∈ t, ¬(isSpaceChar c = true) := by
      intro c hc
      simp [h t (by simp) c hc]
    have ih := splitWS_joinSp (t' :: ts)
      (fun u hu c hc => h u (by simp [hu]) c hc)
    rw [joinSp_cons_cons, splitWS, List.splitOnP_first _ _ ht ' ' (by decide)]
    have ih' : (List.splitOnP isSpaceChar (joinSp (t' :: ts))).filter
        (fun t => t ≠ []) = (t' :: ts).filter (fun t => t ≠ []) := by
      simpa [splitWS] using ih
    simp only [ne_eq, decide_not] at ih'
    by_cases hte : t = [] <;> simp [List.filter_cons, hte, ih']

/-- Mapping a space-preserving character function through a join maps the
chunks. -/
theorem map_joinSp (f : Char → Char) (hf : f ' ' = ' ') : ∀ (ts : List Str),
    (joinSp ts).map f = joinSp (ts.map (fun t => t.map f))
  | [] => rfl
  | [t] => by simp [joinSp, List.intercalate]
  | t :: t' :: ts => by
    rw [joinSp_cons_cons, List.map_append, List.map_cons, hf,
      map_joinSp f hf (t' :: ts)]
    simp only [List.map_cons]
    rw [joinSp_cons_cons]

/-- Filtering with a space-keeping predicate through a join filters the
chunks. -/
theorem filter_joinSp (p : Char → Bool) (hp : p ' ' = true) : ∀ (ts : List Str),
    (joinSp ts).filter p = joinSp (ts.map (fun t => t.filter p))
  | [] => rfl
  | [t] => by simp [joinSp, List.intercalate]
  | t :: t' :: ts => by
    rw [joinSp_cons_cons, List.filter_append, List.filter_cons]
    simp only [hp, if_true]
    rw [filter_joinSp p hp (t' :: ts)]
    simp only [List.map_cons]
    rw [joinSp_cons_cons]

/-- Python `str.split(' ')` is a right inverse of `' '.join` on nonempty chunk
lists whose chunks contain no space. -/
theorem splitSp_joinSp (ts : List Str) (hts : ts ≠ [])
    (h : ∀ t ∈ ts, ' ' ∉ t) : splitSp (joinSp ts) = ts := by
  have := List.splitOn_intercalate ts ' ' h hts
  simpa [splitSp, joinSp] using this

/-- A token of normalized output, as fixedness under re-normalization
needs it: nonempty; each character lowercase, not punctuation, not a
digit, not whitespace; outside both stopword resources; a fixed point of
the stemmer. -/
def CleanToken (R : Sastrawi) (t : Str) : Prop :=
  t ≠ [] ∧
  (∀ c ∈ t, Char.toLower c = c ∧ isPunctChar c = false ∧
    isDigitChar c = false ∧ isSpaceChar c = false) ∧
  R.isStop t = false ∧ t ∉ CUSTOM_STOPWORDS ∧ R.stem t = t

instance decCleanToken (R : Sastrawi) (t : Str) : Decidable (CleanToken R t) := by
  unfold CleanToken
  exact inferInstance

/-- A space-joined list of clean tokens is a fixed point of `preprocess`:
every stage of the pipeline leaves it unchanged. -/
theorem preprocess_fixed (R : Sastrawi) (ts : List Str)
    (h : ∀ t ∈ ts, CleanToken R t) :
    preprocess R (joinSp ts) = joinSp ts := by
  have hspace : ∀ t ∈ ts, ∀ c ∈ t, isSpaceChar c = false :=
    fun t ht c hc => ((h t ht).2.1 c hc).2.2.2
  have hne : ∀ t ∈ ts, t ≠ [] := fun t ht => (h t ht).1
  have hfilter_ne : ts.filter (fun t => t ≠ []) = ts :=
    List.filter_eq_self.mpr (fun t ht => by simpa using hne t ht)
  -- stage 1: case folding
  have h1 : case_folding (joinSp ts) = joinSp ts := by
    rw [case_folding, pyLower, map_joinSp Char.toLower (by decide)]
    congr 1
    exact map_eq_self_of_mem (fun t ht =>
      map_eq_self_of_mem (fun c hc => ((h t ht).2.1 c hc).1))
  -- stage 2: punctuation and digit removal, whitespace renormalization
  have h2 : remove_punctuation (joinSp ts) = joinSp ts := by
    rw [remove_punctuation]
    have hp1 : (joinSp ts).filter (fun c => !isPunctChar c) = joinSp ts := by
      rw [filter_joinSp _ (by decide)]
      congr 1
      exact map_eq_self_of_mem (fun t ht =>
        List.filter_eq_self.mpr (fun c hc => by
          simp [((h t ht).2.1 c hc).2.1]))
    have hp2 : (joinSp ts).filter (fun c => !isDigitChar c) = joinSp ts := by
      rw [filter_joinSp _ (by decide)]
      congr 1
      exact map_eq_self_of_mem (fun t ht =>
        List.filter_eq_self.mpr (fun c hc => by
          simp [((h t ht).2.1 c hc).2.2.1]))
    simp only [hp1, hp2]
    rw [splitWS_joinSp ts hspace, hfilter_ne]
  -- stage 3: tokenizing recovers the tokens
  have h3 : tokenize (joinSp ts) = ts := by
    rw [tokenize, splitWS_joinSp ts hspace, hfilter_ne]
  -- stage 4: both stopword passes keep every token
  have h4 : remove_stopwords R ts = ts := by
    rw [remove_stopwords]
    rcases ts with _ | ⟨t0, ts0⟩
    · cases hstop : R.isStop [] <;>
        simp [sastrawiRemove, splitSp, joinSp, splitWS, hstop,
          List.intercalate]
    · have hsp : splitSp (joinSp (t0 :: ts0)) = t0 :: ts0 :=
        splitSp_joinSp _ (by simp)
          (fun t ht hmem => absurd (hspace t ht ' ' hmem) (by decide))
      have hstop : (t0 :: ts0).filter (fun w => !R.isStop w) = t0 :: ts0 :=
        List.filter_eq_self.mpr (fun t ht => by simp [(h t ht).2.2.1])
      rw [sastrawiRemove, hsp, hstop, splitWS_joinSp _ hspace, hfilter_ne]
      exact List.filter_eq_self.mpr (fun t ht => by
        simpa using (h t ht).2.2.2.1)
  -- stage 5: stemming fixes every token
  have h5 : stemTokens R ts = ts :=
    map_eq_self_of_mem (fun t ht => (h t ht).2.2.2.2)
  rw [preprocess, preprocessTokens, h1, h2, h3, h4, h5]

/-- The label field of a `/predict` route response (`none` on the error
payloads). -/
def Response.kualitas? : Response → Option Str
  | .ok k _ _ _ _ _ => some k
  | .err _ => none

/-- The probability-dictionary field of a `/predict` route response. -/
def Response.probabilitas? : Response → Option (List (Str × ℚ))
  | .ok _ _ _ p _ _ => some p
  | .err _ => none

/-! ## Claim theorems -/

/-- C1 (counterexample): normalization is NOT idempotent on every string.
`preprocess` stems after removing stopwords, so the token "sangatlah" —
itself in neither stopword set — is stemmed to "sangat", a member of
`CUSTOM_STOPWORDS`; re-normalizing the normalized output removes it,
yielding "" instead of "sangat". -/
theorem c1_counterexample :
    preprocess sastrawiModel (preprocess sastrawiModel "sangatlah".toList) ≠
      preprocess sastrawiModel "sangatlah".toList := by decide

/-- C1 (amended): normalizing twice equals normalizing once for every
string whose normalized tokens are clean — lowercase, free of
punctuation, digits and whitespace, outside both stopword sets, and fixed
points of the stemmer.  The case the original claim singles out (a stem
that lands in the custom stopword set) is precisely where idempotence
fails, as `c1_counterexample` shows. -/
theorem c1_preprocess_idempotent (R : Sastrawi) (s : Str)
    (h : ∀ t ∈ preprocessTokens R s, CleanToken R t) :
    preprocess R (preprocess R s) = preprocess R s :=
  preprocess_fixed R (preprocessTokens R s) h

/-- Witness for C1: the cleanliness hypothesis holds at a concrete input,
and idempotence follows there. -/
theorem c1_witness :
    (∀ t ∈ preprocessTokens sastrawiModel "udara kabut bersih".toList,
      CleanToken sastrawiModel t) ∧
    preprocess sastrawiModel
        (preprocess sastrawiModel "udara kabut bersih".toList) =
      preprocess sastrawiModel "udara kabut bersih".toList :=
  ⟨by decide, c1_preprocess_idempotent sastrawiModel _ (by decide)⟩

/-- C2: the serving path is deterministic.  `preprocess` is a pure
function, and two runs of the `/predict` route on the same state and form
data return the same label and the same probability dictionary even when
the advisory-sampling randomness differs between the runs — the random
draws touch only the advisory list. -/
theorem c2_determinism (R : Sastrawi) (E : ExpFn) (s : Str)
    (st : ServerState) (f1 f2 f3 f4 : Str) (r1 r2 r1' r2' : ℕ) :
    preprocess R s = preprocess R s ∧
    (predictRoute R E st f1 f2 f3 f4 r1 r2).kualitas? =
      (predictRoute R E st f1 f2 f3 f4 r1' r2').kualitas? ∧
    (predictRoute R E st f1 f2 f3 f4 r1 r2).probabilitas? =
      (predictRoute R E st f1 f2 f3 f4 r1' r2').probabilitas? := by
  refine ⟨rfl, ?_, ?_⟩ <;>
  · rcases st with ⟨om, ov⟩
    rcases om with _ | m <;> rcases ov with _ | v
    · rfl
    · rfl
    · rfl
    · simp only [predictRoute]
      by_cases hst :
          pyStrip (f1 ++ ' ' :: f2 ++ ' ' :: f3 ++ ' ' :: f4) = []
      · rw [if_pos hst, if_pos hst]
      · rw [if_neg hst, if_neg hst]
        rfl

/-- C7: normalizing the empty string or a whitespace-only string yields
the empty string, for every instantiation of the external linguistic
resources; every pipeline stage is total on these inputs. -/
theorem c7_empty_input (R : Sastrawi) :
    preprocess R "".toList = "".toList ∧
    preprocess R "   ".toList = "".toList := by
  constructor <;>
  · cases hstop : R.isStop [] <;>
      simp +decide [preprocess, preprocessTokens, case_folding, pyLower,
        remove_punctuation, tokenize, remove_stopwords, sastrawiRemove,
        splitSp, splitWS, joinSp, stemTokens, hstop, List.intercalate]

/-- C8: both stopword passes are applied (library pass on the joined
string first, per-token custom pass second), and on
"udara yang sangat bersih" the tokens "yang" and "sangat" never survive:
whatever the library dictionary contains, both words are members of
`CUSTOM_STOPWORDS`.  The hypotheses say only that the stemmer maps the two
content words to space-free stems other than "yang"/"sangat". -/
theorem c8_stopword_removal (R : Sastrawi)
    (hu : ∀ c ∈ R.stem "udara".toList, isSpaceChar c = false)
    (hb : ∀ c ∈ R.stem "bersih".toList, isSpaceChar c = false)
    (hu2 : R.stem "udara".toList ≠ "yang".toList ∧
      R.stem "udara".toList ≠ "sangat".toList)
    (hb2 : R.stem "bersih".toList ≠ "yang".toList ∧
      R.stem "bersih".toList ≠ "sangat".toList) :
    "yang".toList ∉ splitWS (preprocess R "udara yang sangat bersih".toList) ∧
    "sangat".toList ∉ splitWS (preprocess R "udara yang sangat bersih".toList) := by
  have hmem : ∀ t ∈ preprocessTokens R "udara yang sangat bersih".toList,
      t = R.stem "udara".toList ∨ t = R.stem "bersih".toList := by
    intro t ht
    have htoks : tokenize (remove_punctuation
        (case_folding "udara yang sangat bersih".toList)) =
        ["udara".toList, "yang".toList, "sangat".toList, "bersih".toList] := by
      decide
    simp only [preprocessTokens, htoks, remove_stopwords, sastrawiRemove] at ht
    have hsplit : splitSp (joinSp ["udara".toList, "yang".toList,
        "sangat".toList, "bersih".toList]) =
        ["udara".toList, "yang".toList, "sangat".toList, "bersih".toList] := by
      decide
    rw [hsplit] at ht
    have hfs : ∀ u ∈ (["udara".toList, "yang".toList, "sangat".toList,
        "bersih".toList]).filter (fun w => !R.isStop w),
        ∀ c ∈ u, isSpaceChar c = false := by
      intro u hu c hc
      have hu' := (List.mem_filter.mp hu).1
      simp only [List.mem_cons, List.not_mem_nil, or_false] at hu'
      rcases hu' with rfl | rfl | rfl | rfl <;> revert c <;> decide
    rw [splitWS_joinSp _ hfs] at ht
    simp only [stemTokens, List.mem_map] at ht
    obtain ⟨u, hu', rfl⟩ := ht
    have h1 := List.mem_filter.mp hu'
    have h2 := List.mem_filter.mp h1.1
    have h3 := (List.mem_filter.mp h2.1).1
    have hcust := h1.2
    simp only [List.mem_cons, List.not_mem_nil, or_false] at h3
    rcases h3 with rfl | rfl | rfl | rfl
    · exact Or.inl rfl
    · exact absurd hcust (by decide)
    · exact absurd hcust (by decide)
    · exact Or.inr rfl
  have hsw : splitWS (preprocess R "udara yang sangat bersih".toList) =
      (preprocessTokens R "udara yang sangat bersih".toList).filter
        (fun t => t ≠ []) := by
    apply splitWS_joinSp
    intro t ht c hc
    rcases hmem t ht with rfl | rfl
    · exact hu c hc
    · exact hb c hc
  constructor <;> intro hcontra <;> rw [hsw] at hcontra <;>
    rcases hmem _ (List.mem_filter.mp hcontra).1 with heq | heq
  · exact hu2.1 heq.symm
  · exact hb2.1 heq.symm
  · exact hu2.2 heq.symm
  · exact hb2.2 heq.symm

/-- Witness for C8: all four stemmer hypotheses hold for the Sastrawi
model, and neither "yang" nor "sangat" appears in the normalized output. -/
theorem c8_witness :
    (∀ c ∈ sastrawiModel.stem "udara".toList, isSpaceChar c = false) ∧
    (∀ c ∈ sastrawiModel.stem "bersih".toList, isSpaceChar c = false) ∧
    "yang".toList ∉
      splitWS (preprocess sastrawiModel "udara yang sangat bersih".toList) ∧
    "sangat".toList ∉
      splitWS (preprocess sastrawiModel "udara yang sangat bersih".toList) :=
  ⟨by decide, by decide,
    (c8_stopword_removal sastrawiModel (by decide) (by decide)
      (by decide) (by decide)).1,
    (c8_stopword_removal sastrawiModel (by decide) (by decide)
      (by decide) (by decide)).2⟩

/-- C4: after startup, serving fails with the model-unavailable payload
exactly when the artifact pair is not fully loaded.  `load_model` loads
the two pickles together or not at all, so the globals are never a
mismatched pair; if either file is missing, every `/predict` call returns
the model-unavailable error payload (the route is total — this never
crashes the process); if both are present, that error is never returned. -/
theorem c4_artifact_pairing (R : Sastrawi) (E : ExpFn) (fs : FileSystem)
    (f1 f2 f3 f4 : Str) (r1 r2 : ℕ) :
    ((startupState fs).model.isSome ↔ (startupState fs).vectorizer.isSome) ∧
    (predictRoute R E (startupState fs) f1 f2 f3 f4 r1 r2 =
        Response.err errModelMsg ↔
      (fs.modelFile.isNone ∨ fs.vectorizerFile.isNone)) := by
  rcases fs with ⟨om, ov⟩
  rcases om with _ | m <;> rcases ov with _ | v <;>
    simp only [startupState, load_model, initState, predictRoute] <;>
    try simp
  intro hcontra
  split at hcontra
  · exact absurd hcontra (by decide)
  · cases hcontra

/-- C10: for every label outside the three known categories, `get_saran`
does not fail: it falls back to the "Sedang" pool, returning that pool's
color, icon and description together with 4 or 5 advisories drawn from
that pool, for every value of the process randomness. -/
theorem c10_get_saran_fallback (kualitas : Str) (r1 r2 : ℕ)
    (h : kualitas ≠ "Baik".toList ∧ kualitas ≠ "Sedang".toList ∧
      kualitas ≠ "Tidak Sehat".toList) :
    (get_saran r1 r2 kualitas).warna = "#ffc107".toList ∧
    (get_saran r1 r2 kualitas).icon = "⚠️".toList ∧
    (get_saran r1 r2 kualitas).deskripsi =
      "Kualitas udara cukup baik, namun perlu sedikit perhatian.".toList ∧
    4 ≤ (get_saran r1 r2 kualitas).saran.length ∧
    (get_saran r1 r2 kualitas).saran.length ≤ 5 ∧
    ∀ a ∈ (get_saran r1 r2 kualitas).saran, a ∈ poolSedang.saran_all := by
  have hfind : saran_pool.find? (fun p => decide (p.1 = kualitas)) = none := by
    rw [saran_pool, List.find?_cons_of_neg, List.find?_cons_of_neg,
      List.find?_cons_of_neg, List.find?_nil]
    · exact fun hc => h.2.2 (of_decide_eq_true hc).symm
    · exact fun hc => h.2.1 (of_decide_eq_true hc).symm
    · exact fun hc => h.1 (of_decide_eq_true hc).symm
  have hlen15 : poolSedang.saran_all.length = 15 := by decide
  have hnum : 4 + r1 % 2 ≤ 5 := by omega
  have hmin : min (4 + r1 % 2) poolSedang.saran_all.length = 4 + r1 % 2 := by
    rw [hlen15]; omega
  have hget : get_saran r1 r2 kualitas =
      ⟨poolSedang.warna, poolSedang.icon, poolSedang.deskripsi,
        pySample r2 poolSedang.saran_all (4 + r1 % 2)⟩ := by
    rw [get_saran, hfind]
    simp [hmin]
  rw [hget]
  refine ⟨rfl, rfl, rfl, ?_, ?_, ?_⟩
  · simp only [pySample, List.length_take, List.length_rotate, hlen15]
    omega
  · simp only [pySample, List.length_take, List.length_rotate, hlen15]
    omega
  · intro a ha
    exact List.mem_rotate.mp (List.take_subset _ _ ha)

/-- Witness for C10: the fallback is exercised at the concrete unknown
label "Berbahaya". -/
theorem c10_witness :
    ("Berbahaya".toList ≠ "Baik".toList ∧
      "Berbahaya".toList ≠ "Sedang".toList ∧
      "Berbahaya".toList ≠ "Tidak Sehat".toList) ∧
    (get_saran 0 0 "Berbahaya".toList).warna = "#ffc107".toList ∧
    (get_saran 0 0 "Berbahaya".toList).icon = "⚠️".toList ∧
    (get_saran 0 0 "Berbahaya".toList).deskripsi =
      "Kualitas udara cukup baik, namun perlu sedikit perhatian.".toList ∧
    4 ≤ (get_saran 0 0 "Berbahaya".toList).saran.length ∧
    (get_saran 0 0 "Berbahaya".toList).saran.length ≤ 5 ∧
    ∀ a ∈ (get_saran 0 0 "Berbahaya".toList).saran,
      a ∈ poolSedang.saran_all := by
  refine ⟨by decide, ?_⟩
  have := c10_get_saran_fallback "Berbahaya".toList 0 0 (by decide)
  exact ⟨this.1, this.2.1, this.2.2.1, this.2.2.2.1, this.2.2.2.2.1,
    this.2.2.2.2.2⟩

/-! ## Lemmas about the classifier -/

/-- The function `expApprox` is strictly positive. -/
theorem expApprox_pos (q : ℚ) : 0 < expApprox q := by
  rw [expApprox]
  split_ifs with h
  · linarith
  · exact div_pos one_pos (by linarith)

/-- The function `expApprox` is strictly monotone. -/
theorem expApprox_strictMono : StrictMono expApprox := by
  intro a b hab
  rw [expApprox, expApprox]
  split_ifs with ha hb hb
  · linarith
  · exfalso
    push_neg at hb
    linarith
  · have ha' : (0 : ℚ) < 1 - a := by push_neg at ha; linarith
    have h1 : 1 / (1 - a) < 1 := by
      rw [div_lt_one ha']
      push_neg at ha
      linarith
    linarith
  · have hb' : (0 : ℚ) < 1 - b := by push_neg at hb; linarith
    exact one_div_lt_one_div_of_lt hb' (by linarith)

/-- The concrete `ExpFn` built from `expApprox`. -/
def expModel : ExpFn := ⟨expApprox, expApprox_pos, expApprox_strictMono⟩

/-- A trained model's joint log likelihood vector has one entry per class. -/
theorem jll_length (m : NBModel) (x : List ℚ) (hm : Trained m) :
    (jll m x).length = m.classes.length := by
  rw [jll, List.length_zipWith, hm.2.2.1, hm.2.2.2, Nat.min_self]

/-- Summing after dividing every entry divides the sum. -/
theorem sum_map_div (l : List ℚ) (T : ℚ) :
    (l.map (fun s => s / T)).sum = l.sum / T := by
  induction l with
  | nil => simp
  | cons a l ih => simp [add_div, ih]

/-- The probability vector has one entry per class. -/
theorem nbProba_length (E : ExpFn) (m : NBModel) (x : List ℚ)
    (hm : Trained m) :
    (nbPredictProba E m x).length = m.classes.length := by
  rw [nbPredictProba]
  simp [jll_length m x hm]

/-- The exponentiated scores are positive and sum to a positive total. -/
theorem nbScores_sum_pos (E : ExpFn) (m : NBModel) (x : List ℚ)
    (hm : Trained m) : 0 < ((jll m x).map E.f).sum := by
  apply List.sum_pos
  · intro s hs
    obtain ⟨v, _, rfl⟩ := List.mem_map.mp hs
    exact E.pos v
  · have h1 : ((jll m x).map E.f).length = m.classes.length := by
      simp [jll_length m x hm]
    intro hcon
    rw [hcon] at h1
    exact hm.1 (List.length_eq_zero.mp h1.symm)

/-- Every probability lies in the unit interval. -/
theorem nbProba_mem_unit (E : ExpFn) (m : NBModel) (x : List ℚ)
    (hm : Trained m) : ∀ p ∈ nbPredictProba E m x, 0 ≤ p ∧ p ≤ 1 := by
  intro p hp
  rw [nbPredictProba] at hp
  obtain ⟨s, hs, rfl⟩ := List.mem_map.mp hp
  have hspos : 0 < s := by
    obtain ⟨v, _, rfl⟩ := List.mem_map.mp hs
    exact E.pos v
  have hT := nbScores_sum_pos E m x hm
  constructor
  · exact le_of_lt (div_pos hspos hT)
  · rw [div_le_one hT]
    exact List.single_le_sum (fun y hy => by
      obtain ⟨v, _, rfl⟩ := List.mem_map.mp hy
      exact le_of_lt (E.pos v)) s hs

/-- The probabilities sum to exactly 1 (in exact rational arithmetic). -/
theorem nbProba_sum_one (E : ExpFn) (m : NBModel) (x : List ℚ)
    (hm : Trained m) : (nbPredictProba E m x).sum = 1 := by
  rw [nbPredictProba]
  simp only [sum_map_div]
  exact div_self (nbScores_sum_pos E m x hm).ne'

/-- The accumulator-passing argmax never exceeds the index range. -/
theorem argmaxAux_lt_length : ∀ (vs : List ℚ) (bi : ℕ) (bv : ℚ) (i : ℕ),
    bi < i → argmaxAux bi bv i vs < i + vs.length
  | [], bi, bv, i, h => by simpa [argmaxAux] using h
  | v :: vs, bi, bv, i, h => by
    rw [argmaxAux]
    split_ifs with hlt
    · have := argmaxAux_lt_length vs i v (i + 1) (by omega)
      simpa [Nat.add_comm, Nat.add_assoc, Nat.add_left_comm] using this
    · have := argmaxAux_lt_length vs bi bv (i + 1) (by omega)
      simpa [Nat.add_comm, Nat.add_assoc, Nat.add_left_comm] using this

/-- The argmax of a nonempty list is a valid index. -/
theorem argmaxIdx_lt_length (l : List ℚ) (hl : l ≠ []) :
    argmaxIdx l < l.length := by
  rcases l with _ | ⟨v, vs⟩
  · exact absurd rfl hl
  · rw [argmaxIdx]
    have := argmaxAux_lt_length vs 0 v 1 (by omega)
    simp only [List.length_cons]
    omega

/-- Applying a strictly monotone map to the values does not change the
accumulator-passing argmax. -/
theorem argmaxAux_map (g : ℚ → ℚ) (hg : StrictMono g) :
    ∀ (vs : List ℚ) (bi : ℕ) (bv : ℚ) (i : ℕ),
    argmaxAux bi (g bv) i (vs.map g) = argmaxAux bi bv i vs
  | [], _, _, _ => rfl
  | v :: vs, bi, bv, i => by
    rw [List.map_cons, argmaxAux, argmaxAux]
    by_cases hlt : bv < v
    · rw [if_pos (hg hlt), if_pos hlt, argmaxAux_map g hg]
    · rw [if_neg (fun hc => hlt (hg.lt_iff_lt.mp hc)), if_neg hlt,
        argmaxAux_map g hg]

/-- Applying a strictly monotone map to the values does not change the
first-occurrence argmax: the tie-breaking index is preserved. -/
theorem argmaxIdx_map (g : ℚ → ℚ) (hg : StrictMono g) (l : List ℚ) :
    argmaxIdx (l.map g) = argmaxIdx l := by
  rcases l with _ | ⟨v, vs⟩
  · rfl
  · rw [List.map_cons, argmaxIdx, argmaxIdx, argmaxAux_map g hg]

/-- The probability vector is the joint log likelihood vector mapped
through a strictly monotone function (exponentiation followed by division
by the positive total), so both have the same first-max index. -/
theorem argmaxIdx_proba_eq (E : ExpFn) (m : NBModel) (x : List ℚ)
    (hm : Trained m) :
    argmaxIdx (nbPredictProba E m x) = argmaxIdx (jll m x) := by
  have hT := nbScores_sum_pos E m x hm
  have hmono : StrictMono (fun v => E.f v / ((jll m x).map E.f).sum) :=
    fun a b hab => (div_lt_div_iff_of_pos_right hT).mpr (E.mono hab)
  rw [nbPredictProba]
  simp only [List.map_map]
  exact argmaxIdx_map _ hmono (jll m x)

/-- The predicted label is a member of the training class list. -/
theorem nbPredict_mem (m : NBModel) (x : List ℚ) (hm : Trained m) :
    nbPredict m x ∈ m.classes := by
  rw [nbPredict]
  have hlt : argmaxIdx (jll m x) < m.classes.length := by
    rw [← jll_length m x hm]
    apply argmaxIdx_lt_length
    intro hcon
    have := jll_length m x hm
    rw [hcon] at this
    exact hm.1 (List.length_eq_zero.mp this.symm)
  rw [List.getD_eq_getElem _ _ hlt]
  exact List.getElem_mem hlt

instance decTrained (m : NBModel) : Decidable (Trained m) := by
  unfold Trained
  exact inferInstance

/-- A concrete fitted-classifier stand-in used by the witnesses: the three
repository labels with arbitrary rational parameters. -/
def mSample : NBModel :=
  ⟨["Baik".toList, "Sedang".toList, "Tidak Sehat".toList],
    [-1, -2, -3], [[0], [1], [-1]]⟩

/-- A concrete fitted-vectorizer stand-in used by the witnesses. -/
def vSample : Vectorizer := ⟨["udara".toList, "asap tebal".toList], [2, 3]⟩

/-- A zipWith over vocabulary entries that all count zero yields the zero
vector. -/
theorem zipWith_count_zero (ts : List Str) : ∀ (vo : List Str) (idf : List ℚ),
    idf.length = vo.length → (∀ v ∈ vo, v ∉ ts) →
    List.zipWith (fun v i => ((ts.count v : ℚ) * i)) vo idf =
      List.replicate vo.length 0
  | [], [], _, _ => rfl
  | [], _ :: _, h, _ => by simp at h
  | _ :: _, [], h, _ => by simp at h
  | v :: vo, i :: idf, h, hm => by
    rw [List.zipWith_cons_cons, List.length_cons, List.replicate_succ]
    congr 1
    · rw [List.count_eq_zero.mpr (hm v (by simp))]
      simp
    · exact zipWith_count_zero ts vo idf (by simpa using h)
        (fun u hu => hm u (by simp [hu]))

/-- Transforming a fully out-of-vocabulary document yields the zero
feature vector. -/
theorem transform_oov_zero (V : Vectorizer) (doc : Str)
    (hV : V.idf.length = V.vocab.length)
    (hoov : ∀ v ∈ V.vocab, v ∉ ngrams doc) :
    transform V doc = List.replicate V.vocab.length (0 : ℚ) := by
  rw [transform]
  exact zipWith_count_zero (ngrams doc) V.vocab V.idf hV hoov

/-- C5: for every input vector and every trained artifact, zipping the
probabilities against `classes_` (as the `/predict` route does with
`dict(zip(model.classes_, probability))`) produces one entry per training
label — exactly the training label set, in the fixed internal order —
each value lies in [0, 1], and the values sum to 1.0 within 1e-6 (exactly
1 in rational arithmetic). -/
theorem c5_probability_wellformed (E : ExpFn) (m : NBModel) (x : List ℚ)
    (hm : Trained m) :
    (nbPredictProba E m x).length = m.classes.length ∧
    ((m.classes.zip (nbPredictProba E m x)).map Prod.fst = m.classes) ∧
    (∀ p ∈ nbPredictProba E m x, 0 ≤ p ∧ p ≤ 1) ∧
    |(nbPredictProba E m x).sum - 1| ≤ 1 / 1000000 := by
  refine ⟨nbProba_length E m x hm, ?_, nbProba_mem_unit E m x hm, ?_⟩
  · exact List.map_fst_zip _ _ (le_of_eq (nbProba_length E m x hm).symm)
  · rw [nbProba_sum_one E m x hm]
    norm_num

/-- Witness for C5 at a concrete trained artifact and input. -/
theorem c5_witness :
    Trained mSample ∧
    ((nbPredictProba expModel mSample [2]).length = mSample.classes.length ∧
    ((mSample.classes.zip (nbPredictProba expModel mSample [2])).map
      Prod.fst = mSample.classes) ∧
    (∀ p ∈ nbPredictProba expModel mSample [2], 0 ≤ p ∧ p ≤ 1) ∧
    |(nbPredictProba expModel mSample [2]).sum - 1| ≤ 1 / 1000000) :=
  ⟨by decide, c5_probability_wellformed expModel mSample [2] (by decide)⟩

/-- C6: the label returned by predict is the class at the argmax of the
returned probability distribution — ties broken by the first-occurrence
rule of `numpy.argmax` over the fixed `classes_` ordering, with no
randomness — and the label is always a member of the training label
set. -/
theorem c6_argmax_label (E : ExpFn) (m : NBModel) (x : List ℚ)
    (hm : Trained m) :
    nbPredict m x ∈ m.classes ∧
    nbPredict m x = m.classes.getD (argmaxIdx (nbPredictProba E m x)) [] := by
  refine ⟨nbPredict_mem m x hm, ?_⟩
  rw [nbPredict, argmaxIdx_proba_eq E m x hm]

/-- Witness for C6 at a concrete trained artifact and input. -/
theorem c6_witness :
    Trained mSample ∧
    nbPredict mSample [2] ∈ mSample.classes ∧
    nbPredict mSample [2] =
      mSample.classes.getD
        (argmaxIdx (nbPredictProba expModel mSample [2])) [] :=
  ⟨by decide, c6_argmax_label expModel mSample [2] (by decide)⟩

/-- C9: predicting on a document every term of which (unigram or bigram)
is outside the trained vocabulary does not fail: the feature vector is
the zero vector (every unseen term contributes zero), and predict still
returns a member of the training label set together with a full
probability distribution summing to 1.  A document that normalizes to
the empty string has no terms at all, so it satisfies the hypothesis for
any vocabulary. -/
theorem c9_oov_robust (E : ExpFn) (m : NBModel) (V : Vectorizer) (doc : Str)
    (hm : Trained m) (hV : V.idf.length = V.vocab.length)
    (hoov : ∀ v ∈ V.vocab, v ∉ ngrams doc) :
    transform V doc = List.replicate V.vocab.length (0 : ℚ) ∧
    nbPredict m (transform V doc) ∈ m.classes ∧
    (nbPredictProba E m (transform V doc)).length = m.classes.length ∧
    (nbPredictProba E m (transform V doc)).sum = 1 :=
  ⟨transform_oov_zero V doc hV hoov, nbPredict_mem m _ hm,
    nbProba_length E m _ hm, nbProba_sum_one E m _ hm⟩

/-- Witness for C9: the empty document is fully out of vocabulary for the
concrete artifact, and prediction still returns a class and a full
distribution. -/
theorem c9_witness :
    Trained mSample ∧ vSample.idf.length = vSample.vocab.length ∧
    (∀ v ∈ vSample.vocab, v ∉ ngrams []) ∧
    (transform vSample [] = List.replicate vSample.vocab.length (0 : ℚ) ∧
    nbPredict mSample (transform vSample []) ∈ mSample.classes ∧
    (nbPredictProba expModel mSample
      (transform vSample [])).length = mSample.classes.length ∧
    (nbPredictProba expModel mSample (transform vSample [])).sum = 1) :=
  ⟨by decide, by decide, by decide,
    c9_oov_robust expModel mSample vSample [] (by decide) (by decide)
      (by decide)⟩

/-- C3 (counterexample): training does NOT fail on every dataset with
fewer than 2 distinct labels.  `train_model` performs no validation of its
own, and a 5-sample dataset carrying a single label passes every check the
stratified split actually makes (nonempty partitions, every class with at
least 2 members, partitions at least as large as the class count), so the
run returns a fitted (model, vectorizer) pair. -/
theorem c3_counterexample :
    (train_model (List.replicate 5
      ("udara segar bersih".toList, "Baik".toList))).isOk = true := by
  decide

/-- C3 (amended): training fails — with an error raised by the stratified
split, before any fitting — whenever the dataset has fewer than 2
samples, whenever some label occurs fewer than twice, and whenever a
train/test partition is smaller than the number of distinct labels; but
the 2-distinct-labels part of the spec's precondition is not enforced, as
`c3_counterexample` shows. -/
theorem c3_training_failure (data : List (Str × Str))
    (h : data.length < 2 ∨
      (∃ c ∈ (data.map Prod.snd).dedup,
        (data.map Prod.snd).count c < 2) ∨
      data.length - nTestOf data.length <
        ((data.map Prod.snd).dedup).length ∨
      nTestOf data.length < ((data.map Prod.snd).dedup).length) :
    (train_model data).isOk = false := by
  by_cases h0 : data.length - nTestOf data.length = 0 ∨
      nTestOf data.length = 0
  · simp [train_model, h0]
    rfl
  · rcases h with hlen | ⟨c, hc, hcount⟩ | hpart
    · exfalso
      apply h0
      have he : nTestOf data.length = (data.length + 4) / 5 := rfl
      omega
    · have hany : ((data.map Prod.snd).dedup).any
          (fun c => decide ((data.map Prod.snd).count c < 2)) = true :=
        List.any_eq_true.mpr ⟨c, hc, by simpa using hcount⟩
      simp [train_model, h0, hany]
      rfl
    · by_cases hany : ((data.map Prod.snd).dedup).any
          (fun c => decide ((data.map Prod.snd).count c < 2)) = true
      · simp [train_model, h0, hany]
        rfl
      · simp [train_model, h0, hany, hpart]
        rfl

/-- A labeled dataset whose test partition (2 of 10 rows) is smaller than
its class count (3): every label occurs at least twice, yet the stratified
split still fails. -/
def c3Data : List (Str × Str) :=
  List.replicate 4 ("udara segar".toList, "Baik".toList) ++
  List.replicate 4 ("agak debu".toList, "Sedang".toList) ++
  List.replicate 2 ("asap tebal".toList, "Tidak Sehat".toList)

/-- Witness for C3 (amended): on the 4/4/2 dataset the first two failure
conditions are false but the partition condition holds, and training
fails. -/
theorem c3_witness :
    (c3Data.length < 2 ∨
      (∃ c ∈ (c3Data.map Prod.snd).dedup,
        (c3Data.map Prod.snd).count c < 2) ∨
      c3Data.length - nTestOf c3Data.length <
        ((c3Data.map Prod.snd).dedup).length ∨
      nTestOf c3Data.length < ((c3Data.map Prod.snd).dedup).length) ∧
    (train_model c3Data).isOk = false :=
  ⟨Or.inr (Or.inr (Or.inr (by decide))),
    c3_training_failure c3Data (Or.inr (Or.inr (Or.inr (by decide))))⟩

end AirCheck
